import Mathlib

/-!
Shallow embedding of `tools/c7n_huaweicloud/c7n_huaweicloud/resources/kms.py`
(cloud-custodian HuaweiCloud KMS plugin), together with theorems settling the
specification claims about it.

Provider clients are modelled as records of response data: a call site in the
Python code becomes a lookup of the corresponding response, and the effects of
a method (API calls issued, log events, raised exceptions, returned value) are
made explicit in its result type.  Python exceptions become `Except` errors,
`dict`s become association lists with last-write-wins insertion, Python `set`s
become duplicate-free lists, and the unbounded `while True` tag-pagination loop
takes explicit fuel.
-/

set_option autoImplicit false

namespace KmsSpec

/-- One entry of a `list_kms_by_tags` response: `resource_id` plus the tag list
obtained from `tagResource.to_dict().get('tags')` (tags as key/value pairs). -/
structure TagResource where
  resource_id : String
  tags : List (String × String)
deriving DecidableEq

/-- A `list_kms_by_tags` response page: `resources` and `total_count`
(Python falsy `total_count`, i.e. `None` or `0`, is modelled as `0`). -/
structure TagPage where
  total_count : Nat
  resources : List TagResource
deriving DecidableEq

/-- One entry of `response.key_details` from `list_keys`: the `key_id` plus the
remaining fields of `detail.to_dict()`. -/
structure KeyDetail where
  key_id : String
  fields : List (String × String)
deriving DecidableEq

/-- The KMS client as seen by `Kms.get_api_resources`: the response to the tag
request at a given offset, and the response to the single `list_keys` request.
An `Except.error` models the request raising an exception. -/
structure KmsClient where
  list_kms_by_tags : Nat → Except String TagPage
  list_keys : Except String (List KeyDetail)

/-- `resourceTagDict`: a Python dict from resource id to tag list. -/
def TagDict := List (String × List (String × String))

/-- Python dict assignment `d[k] = v`: overwrite the existing binding or append. -/
def dictInsert : TagDict → String → List (String × String) → TagDict
  | [], k, v => [(k, v)]
  | (k', v') :: rest, k, v =>
    if k' = k then (k, v) :: rest else (k', v') :: dictInsert rest k v

/-- Python `d.get(k)` on the tag dict. -/
def dictGet? : TagDict → String → Option (List (String × String))
  | [], _ => none
  | (k', v') :: rest, k => if k' = k then some v' else dictGet? rest k

/-- The body of one iteration's merge:
`for tagResource in tagResources: resourceTagDict[resource_id] = tags`. -/
def insertPage (d : TagDict) (rs : List TagResource) : TagDict :=
  rs.foldl (fun d t => dictInsert d t.resource_id t.tags) d

/-- The `while True` tag-pagination loop of `Kms.get_api_resources`, with
explicit fuel.  Returns the collected tag dict and the number of
`list_kms_by_tags` requests issued.  Each iteration: issue the request at the
current offset; on exception, log and `break`, keeping the dict collected so
far; otherwise merge the page into the dict, do `offset += limit`
(`limit = 1000`), and `break` when `total_count` is falsy or
`offset >= len(responseTag.resources)`. -/
def tagLoop (client : KmsClient) : Nat → Nat → TagDict → TagDict × Nat
  | 0, _, dict => (dict, 0)
  | fuel + 1, offset, dict =>
    match client.list_kms_by_tags offset with
    | Except.error _ => (dict, 1)
    | Except.ok page =>
      let dict' := insertPage dict page.resources
      let offset' := offset + 1000
      if page.total_count = 0 ∨ page.resources.length ≤ offset' then
        (dict', 1)
      else
        let r := tagLoop client fuel offset' dict'
        (r.1, r.2 + 1)

/-- A merged key record produced by `Kms.get_api_resources`: the original
detail dict plus the `"id"` and `"tags"` fields written into it. -/
structure KeyRecord where
  detail : KeyDetail
  id : String
  tags : List (String × String)
deriving DecidableEq

/-- `Kms.get_api_resources`: run the tag-pagination loop from `offset = 0` with
an empty dict, then issue `list_keys` (key_spec `"ALL"`); on its failure log
and re-raise; otherwise merge each key detail with
`dict["tags"] = resourceTagDict.get(detail.key_id, default)` (where `default`
is the empty list) and `dict["id"] = detail.key_id`. -/
def get_api_resources (client : KmsClient) (fuel : Nat) :
    Except String (List KeyRecord) :=
  let dict := (tagLoop client fuel 0 []).1
  match client.list_keys with
  | Except.error e => Except.error e
  | Except.ok details =>
      Except.ok (details.map fun d =>
        { detail := d, id := d.key_id, tags := (dictGet? dict d.key_id).getD [] })

/-! ### Rotation actions (`rotationKey` / `disableRotationKey`) -/

/-- The fields of a key resource dict that the rotation actions read. -/
structure KmsResource where
  key_id : String
  default_key_flag : String
  key_spec : String
  keystore_id : String
  key_state : String
deriving DecidableEq

/-- A provider SDK exception, carrying `status_code` and `error_msg`. -/
structure ProviderError where
  status_code : Nat
  error_msg : String
deriving DecidableEq

/-- Log events emitted by the rotation actions (the long format strings of the
source are abstracted to their event kind plus the formatted-in data). -/
inductive KmsLog where
  | enableSuccess (rid : String)
  | enableBenign400 (rid : String) (msg : String)
  | enableFailed (rid : String)
  | skipEnable (rid : String)
deriving DecidableEq

/-- The observable effects of one `perform_action` run: the key ids passed to
the rotation API call, the log events, and the exception the method lets
escape (if any). -/
structure ActionEffects where
  calls : List String
  logs : List KmsLog
  raised : Option ProviderError
deriving DecidableEq

/-- `supportList` of `rotationKey.perform_action`. -/
def supportList : List String := ["AES_256", "SM4"]

/-- `rotationKey.perform_action` (action `enable_key_rotation`).  `resp` is
what `client.enable_key_rotation(request)` does when called.  If the resource
passes the four-way eligibility test the call is issued: on success an info
log, on an exception with `status_code == 400` a benign info log, on any other
exception an error log — nothing is re-raised.  Otherwise a skip is logged and
no call is made. -/
def rotationKey_perform_action (resp : Except ProviderError Unit)
    (r : KmsResource) : ActionEffects :=
  if r.default_key_flag = "0" ∧ r.key_spec ∈ supportList ∧
      r.keystore_id = "0" ∧ r.key_state ∈ (["2"] : List String) then
    match resp with
    | Except.ok _ =>
        { calls := [r.key_id], logs := [KmsLog.enableSuccess r.key_id], raised := none }
    | Except.error e =>
        if e.status_code = 400 then
          { calls := [r.key_id], logs := [KmsLog.enableBenign400 r.key_id e.error_msg],
            raised := none }
        else
          { calls := [r.key_id], logs := [KmsLog.enableFailed r.key_id], raised := none }
  else
    { calls := [], logs := [KmsLog.skipEnable r.key_id], raised := none }

/-- `notSupportList` of `disableRotationKey.perform_action`. -/
def notSupportList : List String :=
  ["RSA_2048", "RSA_3072", "RSA_4096", "EC_P256", "EC_P384",
   "SM2", "ML_DSA_44", "ML_DSA_65", "ML_DSA_87"]

/-- `disableRotationKey.perform_action` (action `disable_key_rotation`): when
the resource is eligible, issue `client.disable_key_rotation(request)`; any
exception from the call is re-raised (`raise e`).  When ineligible, nothing
happens. -/
def disableRotationKey_perform_action (resp : Except ProviderError Unit)
    (r : KmsResource) : ActionEffects :=
  if r.default_key_flag = "0" ∧ r.key_spec ∉ notSupportList ∧
      r.keystore_id = "0" ∧ r.key_state ∈ (["2", "3", "4"] : List String) then
    match resp with
    | Except.ok _ => { calls := [r.key_id], logs := [], raised := none }
    | Except.error e => { calls := [r.key_id], logs := [], raised := some e }
  else
    { calls := [], logs := [], raised := none }

/-! ### Python string primitives used by `createKey`'s URL helpers -/

/-- Clamp a Python slice index to a bound on a sequence of length `len`:
negative indices count from the end (clamped at `0`), non-negative ones are
capped at `len`. -/
def pyBound (len : Nat) (i : Int) : Nat :=
  if i < 0 then ((len : Int) + i).toNat else min i.toNat len

/-- Python `s[:i]`. -/
def pySliceTo (s : List Char) (i : Int) : List Char :=
  s.take (pyBound s.length i)

/-- Python `s[i:]`. -/
def pySliceFrom (s : List Char) (i : Int) : List Char :=
  s.drop (pyBound s.length i)

/-- Python `s.rfind(sub)`: the highest index at which `sub` occurs in `s`,
or `-1` when it does not occur. -/
def pyRfind (s sub : List Char) : Int :=
  match ((List.range (s.length + 1)).filter
      (fun i => sub.isPrefixOf (s.drop i))).getLast? with
  | some i => (i : Int)
  | none => -1

/-- Python `s.split(c, 1)`: the part before the first occurrence of `c`, and
the part after it when `c` occurs (`none` when it does not, in which case
Python returns a one-element list and indexing `[1]` raises `IndexError`). -/
def pySplit1 (s : List Char) (c : Char) : List Char × Option (List Char) :=
  match s.findIdx? (fun x => x = c) with
  | none => (s, none)
  | some i => (s.take i, some (s.drop (i + 1)))

/-- `createKey.process` line `path_without_protocol = obs_url[protocol_end:]`
with `protocol_end = len("https://")`. -/
def stripProtocol (url : String) : String :=
  String.mk (url.data.drop "https://".length)

/-- `createKey.get_obs_name`: `obs_url[:obs_url.rfind(".obs")]`. -/
def get_obs_name (obs_url : String) : String :=
  String.mk (pySliceTo obs_url.data (pyRfind obs_url.data ".obs".data))

/-- `createKey.get_obs_server`: take `obs_url[obs_url.rfind(".obs"):]`, split
on `"/"` with maxsplit 1, take the first part, and strip leading dots
(`lstrip(".")`). -/
def get_obs_server (obs_url : String) : String :=
  let rem := pySliceFrom obs_url.data (pyRfind obs_url.data ".obs".data)
  String.mk ((pySplit1 rem '/').1.dropWhile (fun ch => ch = '.'))

/-- `createKey.get_file_path`: take `obs_url[obs_url.rfind(".obs"):]`, split
on `"/"` with maxsplit 1, and take the second part; `none` models the
`IndexError` raised when the split yields no second segment. -/
def get_file_path (obs_url : String) : Option String :=
  let rem := pySliceFrom obs_url.data (pyRfind obs_url.data ".obs".data)
  match (pySplit1 rem '/').2 with
  | none => none
  | some t => some (String.mk t)

/-! ### `createKey.process` (action `create-key-with-alias`) -/

/-- `c7n.exceptions.ClientRequestException` as raised by the OBS fetch. -/
structure ClientError where
  status_code : Nat
  request_id : String
  error_code : String
  error_msg : String
deriving DecidableEq

/-- An OBS `getObject` response: `status`, the `obs_key_aliases` array parsed
from the JSON body (`json.loads(resp.body.buffer)['obs_key_aliases']`), and
the error code/message fields used on failure. -/
structure ObsResp where
  status : Nat
  obs_key_aliases : List String
  errorCode : String
  errorMessage : String
deriving DecidableEq

/-- A Python exception escaping `createKey.process`. -/
inductive PyErr where
  | indexError
  | clientRequest (e : ClientError)
  | provider (e : ProviderError)
deriving DecidableEq

/-- A call to the OBS or KMS client issued during `createKey.process`. -/
inductive ApiCall where
  | getObject (bucket object : String)
  | listAliases
  | createKey (key_alias : String)
  | createAlias (key_id aliasName : String)
deriving DecidableEq

/-- The value `createKey.process` returns on a non-raising path: `[]` from its
two early `return []` statements, or Python `None` when the function falls off
the end. -/
inductive ProcRet where
  | emptyList
  | noneRet
deriving DecidableEq

instance exceptDecEq {ε α : Type} [DecidableEq ε] [DecidableEq α] :
    DecidableEq (Except ε α) := fun x y =>
  match x, y with
  | Except.ok a, Except.ok b =>
    if h : a = b then isTrue (by rw [h]) else isFalse (by intro hh; cases hh; exact h rfl)
  | Except.ok _, Except.error _ => isFalse (by intro hh; cases hh)
  | Except.error _, Except.ok _ => isFalse (by intro hh; cases hh)
  | Except.error e, Except.error f =>
    if h : e = f then isTrue (by rw [h]) else isFalse (by intro hh; cases hh; exact h rfl)

/-- The observable outcome of `createKey.process`: the client calls issued, in
order, and either a returned value or an escaped exception. -/
structure ProcResult where
  calls : List ApiCall
  ret : Except PyErr ProcRet
deriving DecidableEq

/-- The action's inputs and client responses: the `key_aliases` / `obs_url`
policy data, the OBS `getObject` response, the `list_aliases` response (the
raw alias strings of `listAliasResponse.body[0].aliases`), the current
`int(time.time())`, and the responses of `create_key` (keyed by the requested
key alias, yielding `key_info.key_id`) and `create_alias`. -/
structure CreateEnv where
  key_aliases : List String
  obs_url : Option String
  getObject : Except ClientError ObsResp
  list_aliases_resp : List String
  time : Nat
  create_key : String → Except ProviderError String
  create_alias : String → String → Except ProviderError Unit

/-- Python `set.add`: duplicate-free insertion, keeping a stable order in
place of the set's arbitrary iteration order. -/
def setInsert (s : List String) (x : String) : List String :=
  if x ∈ s then s else s ++ [x]

/-- Python `set.update`. -/
def setUpdate (s : List String) (xs : List String) : List String :=
  xs.foldl setInsert s

/-- Python `str.replace('alias/', '')`: delete every (non-overlapping,
left-to-right) occurrence of `"alias/"`. -/
def pyReplaceAliasAll : List Char → List Char
  | 'a' :: 'l' :: 'i' :: 'a' :: 's' :: '/' :: rest => pyReplaceAliasAll rest
  | c :: rest => c :: pyReplaceAliasAll rest
  | [] => []

/-- The `for alias in all_key_aliases` loop of `createKey.process`: for each
alias not already in `arr`, issue `create_key` with the timestamp-derived key
name and then `create_alias` with `"alias/" + alias`; any exception from
either call is re-raised, aborting the rest of the batch.  Falling off the end
returns Python `None`. -/
def createLoop (env : CreateEnv) (arr : List String) :
    List String → List ApiCall × Except PyErr ProcRet
  | [] => ([], Except.ok ProcRet.noneRet)
  | a :: rest =>
    if a ∈ arr then createLoop env arr rest
    else
      let keyName := toString env.time
      match env.create_key keyName with
      | Except.error e => ([ApiCall.createKey keyName], Except.error (PyErr.provider e))
      | Except.ok kid =>
        match env.create_alias kid ("alias/" ++ a) with
        | Except.error e =>
            ([ApiCall.createKey keyName, ApiCall.createAlias kid ("alias/" ++ a)],
             Except.error (PyErr.provider e))
        | Except.ok _ =>
            let r := createLoop env arr rest
            (ApiCall.createKey keyName :: ApiCall.createAlias kid ("alias/" ++ a) :: r.1,
             r.2)

/-- The tail of `createKey.process` after the OBS step: fetch the existing
aliases in one `list_aliases` call, strip `'alias/'` from each into the set
`arr`, then run the creation loop over the accumulated desired aliases. -/
def processAfterObs (env : CreateEnv) (preCalls : List ApiCall)
    (allAliases : List String) : ProcResult :=
  let arr := setUpdate []
    (env.list_aliases_resp.map (fun a => String.mk (pyReplaceAliasAll a.data)))
  let r := createLoop env arr allAliases
  { calls := preCalls ++ ApiCall.listAliases :: r.1, ret := r.2 }

/-- `createKey.process`: build `all_key_aliases` from the configured list;
when both `key_aliases` is empty and `obs_url` is `None`, log and
`return []` with no client call.  When a non-empty `obs_url` is configured,
strip the protocol prefix, decompose the URL (`get_file_path` raising
`IndexError` when the split yields no second segment), and fetch the manifest:
a `ClientRequestException` is logged and re-raised, a status `< 300` merges
the manifest's aliases, and any other status logs and `return []`.  Then
list existing aliases and create a key + alias pair for each missing one. -/
def process (env : CreateEnv) : ProcResult :=
  let all0 := setUpdate [] env.key_aliases
  if env.key_aliases = [] ∧ env.obs_url = none then
    { calls := [], ret := Except.ok ProcRet.emptyList }
  else
    match env.obs_url with
    | none => processAfterObs env [] all0
    | some url =>
      if url = "" then processAfterObs env [] all0
      else
        let pathS := stripProtocol url
        let bucket := get_obs_name pathS
        match get_file_path pathS with
        | none => { calls := [], ret := Except.error PyErr.indexError }
        | some file =>
          match env.getObject with
          | Except.error e =>
              { calls := [ApiCall.getObject bucket file],
                ret := Except.error (PyErr.clientRequest e) }
          | Except.ok resp =>
            if resp.status < 300 then
              processAfterObs env [ApiCall.getObject bucket file]
                (setUpdate all0 resp.obs_key_aliases)
            else
              { calls := [ApiCall.getObject bucket file],
                ret := Except.ok ProcRet.emptyList }

/-! ### Claims about `Kms.get_api_resources` -/

/-- Claim C1: during resource enumeration, a failure of any tag-list request
does not abort enumeration — the loop is exited keeping the tags collected so
far, and enumeration proceeds to key listing — whereas a failure of the
key-listing request is logged and re-raised to the caller. -/
theorem kms_c1_tag_failure_nonfatal_key_failure_fatal
    (client : KmsClient) (fuel offset : Nat) (dict : TagDict) (e e' : String) :
    (client.list_kms_by_tags offset = Except.error e' →
      tagLoop client (fuel + 1) offset dict = (dict, 1)) ∧
    (client.list_keys = Except.error e →
      get_api_resources client fuel = Except.error e) ∧
    (client.list_keys.isOk → (get_api_resources client fuel).isOk) := by
  refine ⟨?_, ?_, ?_⟩
  · intro h
    simp [tagLoop, h]
  · intro h
    simp [get_api_resources, h]
  · intro h
    cases hk : client.list_keys with
    | error e1 =>
        rw [hk] at h
        simp [Except.isOk, Except.toBool] at h
    | ok ds =>
        simp [get_api_resources, hk, Except.isOk, Except.toBool]

/-- Client whose tag request and key listing both fail. -/
def clC1a : KmsClient :=
  { list_kms_by_tags := fun _ => Except.error "tagfail",
    list_keys := Except.error "keyfail" }

/-- Client whose tag request fails but whose key listing succeeds. -/
def clC1b : KmsClient :=
  { list_kms_by_tags := fun _ => Except.error "tagfail",
    list_keys := Except.ok [{ key_id := "k1", fields := [] }] }

/-- Witness for C1 at concrete clients. -/
theorem kms_c1_witness :
    tagLoop clC1a 1 0 [] = ([], 1) ∧
    get_api_resources clC1a 0 = Except.error "keyfail" ∧
    (get_api_resources clC1b 0).isOk :=
  ⟨(kms_c1_tag_failure_nonfatal_key_failure_fatal clC1a 0 0 [] "keyfail" "tagfail").1 rfl,
   (kms_c1_tag_failure_nonfatal_key_failure_fatal clC1a 0 0 [] "keyfail" "tagfail").2.1 rfl,
   (kms_c1_tag_failure_nonfatal_key_failure_fatal clC1b 0 0 [] "x" "y").2.2 rfl⟩

/-- Claim C2: every key record produced by `get_api_resources` has its `id`
field equal to its `key_id` field, and when the key id is absent from the
collected tag map its `tags` field is the empty list. -/
theorem kms_c2_record_invariant (client : KmsClient) (fuel : Nat)
    (rs : List KeyRecord) (r : KeyRecord)
    (h : get_api_resources client fuel = Except.ok rs) (hr : r ∈ rs) :
    r.id = r.detail.key_id ∧
    (dictGet? (tagLoop client fuel 0 []).1 r.detail.key_id = none → r.tags = []) := by
  cases hk : client.list_keys with
  | error e1 =>
      simp [get_api_resources, hk] at h
  | ok ds =>
      simp [get_api_resources, hk] at h
      rw [← h] at hr
      rcases List.mem_map.mp hr with ⟨d, _, rfl⟩
      refine ⟨rfl, fun hnone => ?_⟩
      simp only at hnone ⊢
      simp [hnone]

/-- Client with no tags and a single key, for the C2 witness. -/
def clC2 : KmsClient :=
  { list_kms_by_tags := fun _ => Except.ok { total_count := 0, resources := [] },
    list_keys := Except.ok [{ key_id := "k1", fields := [("key_state", "2")] }] }

/-- The record `get_api_resources clC2 1` produces. -/
def recC2 : KeyRecord :=
  { detail := { key_id := "k1", fields := [("key_state", "2")] }, id := "k1", tags := [] }

/-- Witness for C2 at a concrete client and record. -/
theorem kms_c2_witness :
    recC2.id = recC2.detail.key_id ∧
    (dictGet? (tagLoop clC2 1 0 []).1 recC2.detail.key_id = none → recC2.tags = []) :=
  kms_c2_record_invariant clC2 1 [recC2] recC2 rfl (List.mem_singleton.mpr rfl)

/-- Claim C10: when the first tag-list response has falsy `total_count`, or
truthy `total_count` with at most 1000 entries in `resources`, the
tag-pagination loop stops after that one successful iteration — exactly one
tag-list request is issued — because the incremented offset (1000) is compared
against the current page's resource count. -/
theorem kms_c10_single_tag_request (client : KmsClient) (fuel : Nat) (page : TagPage)
    (h : client.list_kms_by_tags 0 = Except.ok page)
    (hsmall : page.total_count = 0 ∨ page.resources.length ≤ 1000) :
    (tagLoop client (fuel + 1) 0 []).2 = 1 := by
  have hc : page.total_count = 0 ∨ page.resources.length ≤ 0 + 1000 := by
    rcases hsmall with h0 | hlen
    · exact Or.inl h0
    · exact Or.inr (by omega)
  simp [tagLoop, h, hc]

/-- Client answering every tag request with a one-entry page claiming a large
total count, for the C10 witness. -/
def clC10 : KmsClient :=
  { list_kms_by_tags := fun _ =>
      Except.ok { total_count := 5000,
                  resources := [{ resource_id := "k1", tags := [("env", "prod")] }] },
    list_keys := Except.ok [] }

/-- Witness for C10: even with plenty of fuel and a large claimed total,
only one tag request is issued. -/
theorem kms_c10_witness : (tagLoop clC10 (99 + 1) 0 []).2 = 1 :=
  kms_c10_single_tag_request clC10 99
    { total_count := 5000,
      resources := [{ resource_id := "k1", tags := [("env", "prod")] }] }
    rfl (Or.inr (by decide))

/-! ### Claims about the rotation actions -/

/-- Claim C3: `enable_key_rotation` issues its provider call exactly when all
four eligibility predicates hold (`default_key_flag = "0"`, `key_spec` in
`{AES_256, SM4}`, `keystore_id = "0"`, `key_state = "2"`); when any predicate
fails, a skip is logged and no call is made. -/
theorem kms_c3_enable_rotation_eligibility
    (resp : Except ProviderError Unit) (r : KmsResource) :
    ((rotationKey_perform_action resp r).calls = [r.key_id] ↔
      (r.default_key_flag = "0" ∧ (r.key_spec = "AES_256" ∨ r.key_spec = "SM4") ∧
        r.keystore_id = "0" ∧ r.key_state = "2")) ∧
    (¬ (r.default_key_flag = "0" ∧ (r.key_spec = "AES_256" ∨ r.key_spec = "SM4") ∧
        r.keystore_id = "0" ∧ r.key_state = "2") →
      (rotationKey_perform_action resp r).calls = [] ∧
      (rotationKey_perform_action resp r).logs = [KmsLog.skipEnable r.key_id]) := by
  have hmem : r.key_spec ∈ supportList ↔ (r.key_spec = "AES_256" ∨ r.key_spec = "SM4") := by
    simp [supportList]
  have hst : r.key_state ∈ (["2"] : List String) ↔ r.key_state = "2" := by
    simp
  by_cases hc : r.default_key_flag = "0" ∧ r.key_spec ∈ supportList ∧
      r.keystore_id = "0" ∧ r.key_state ∈ (["2"] : List String)
  · have hP : r.default_key_flag = "0" ∧ (r.key_spec = "AES_256" ∨ r.key_spec = "SM4") ∧
        r.keystore_id = "0" ∧ r.key_state = "2" :=
      ⟨hc.1, hmem.mp hc.2.1, hc.2.2.1, hst.mp hc.2.2.2⟩
    have hcalls : (rotationKey_perform_action resp r).calls = [r.key_id] := by
      unfold rotationKey_perform_action
      rw [if_pos hc]
      cases resp with
      | ok u => rfl
      | error e1 =>
          dsimp only
          by_cases h4 : e1.status_code = 400
          · rw [if_pos h4]
          · rw [if_neg h4]
    exact ⟨⟨fun _ => hP, fun _ => hcalls⟩, fun hn => absurd hP hn⟩
  · have heff : (rotationKey_perform_action resp r).calls = [] ∧
        (rotationKey_perform_action resp r).logs = [KmsLog.skipEnable r.key_id] := by
      unfold rotationKey_perform_action
      rw [if_neg hc]
      exact ⟨rfl, rfl⟩
    refine ⟨⟨fun hcalls => ?_, fun hP => ?_⟩, fun _ => heff⟩
    · rw [heff.1] at hcalls
      cases hcalls
    · exact absurd ⟨hP.1, hmem.mpr hP.2.1, hP.2.2.1, hst.mpr hP.2.2.2⟩ hc

/-- An eligible key resource for the C3 witness. -/
def rC3 : KmsResource :=
  { key_id := "k3", default_key_flag := "0", key_spec := "AES_256",
    keystore_id := "0", key_state := "2" }

/-- Witness for C3: the eligible resource `rC3` gets exactly its API call. -/
theorem kms_c3_witness :
    (rotationKey_perform_action (Except.ok ()) rC3).calls = ["k3"] :=
  (kms_c3_enable_rotation_eligibility (Except.ok ()) rC3).1.mpr
    ⟨rfl, Or.inl rfl, rfl, rfl⟩

/-- Claim C4: for an eligible resource, when the `disable_key_rotation`
provider call raises any provider error, `disableRotationKey.perform_action`
re-raises that very error. -/
theorem kms_c4_disable_rotation_reraises
    (resp : Except ProviderError Unit) (r : KmsResource) (e : ProviderError)
    (helig : r.default_key_flag = "0" ∧ r.key_spec ∉ notSupportList ∧
      r.keystore_id = "0" ∧ r.key_state ∈ (["2", "3", "4"] : List String))
    (hresp : resp = Except.error e) :
    (disableRotationKey_perform_action resp r).raised = some e ∧
    (disableRotationKey_perform_action resp r).calls = [r.key_id] := by
  subst hresp
  unfold disableRotationKey_perform_action
  rw [if_pos helig]
  exact ⟨rfl, rfl⟩

/-- An eligible key resource for the C4 witness. -/
def rC4 : KmsResource :=
  { key_id := "k4", default_key_flag := "0", key_spec := "AES_256",
    keystore_id := "0", key_state := "3" }

/-- Witness for C4 at a concrete resource and provider error. -/
theorem kms_c4_witness :
    (disableRotationKey_perform_action
        (Except.error { status_code := 500, error_msg := "boom" }) rC4).raised =
      some { status_code := 500, error_msg := "boom" } ∧
    (disableRotationKey_perform_action
        (Except.error { status_code := 500, error_msg := "boom" }) rC4).calls = ["k4"] :=
  kms_c4_disable_rotation_reraises
    (Except.error { status_code := 500, error_msg := "boom" }) rC4
    { status_code := 500, error_msg := "boom" }
    ⟨rfl, by decide, rfl, by decide⟩ rfl

/-- An eligible key resource for the C5 counterexample and witness. -/
def rC5 : KmsResource :=
  { key_id := "k5", default_key_flag := "0", key_spec := "SM4",
    keystore_id := "0", key_state := "2" }

/-- Claim C5 counterexample: a provider error with status 500 is also
swallowed by `enable_key_rotation` — the call is made, the failure is merely
logged as an error, and nothing is re-raised — contradicting the claim that
only status 400 is swallowed. -/
theorem kms_c5_counterexample :
    (rotationKey_perform_action
        (Except.error { status_code := 500, error_msg := "boom" }) rC5).calls = ["k5"] ∧
    (rotationKey_perform_action
        (Except.error { status_code := 500, error_msg := "boom" }) rC5).raised = none ∧
    (rotationKey_perform_action
        (Except.error { status_code := 500, error_msg := "boom" }) rC5).logs =
      [KmsLog.enableFailed "k5"] := by
  decide

/-- Claim C5 (amended): `enable_key_rotation` swallows every provider error —
it never re-raises; a status-400 error is logged as a benign info message and
any other status as an error-level failure message. -/
theorem kms_c5_enable_rotation_swallows_all
    (resp : Except ProviderError Unit) (r : KmsResource) (e : ProviderError) :
    (rotationKey_perform_action resp r).raised = none ∧
    (resp = Except.error e →
      (r.default_key_flag = "0" ∧ r.key_spec ∈ supportList ∧ r.keystore_id = "0" ∧
        r.key_state ∈ (["2"] : List String)) →
      (rotationKey_perform_action resp r).logs =
        (if e.status_code = 400 then [KmsLog.enableBenign400 r.key_id e.error_msg]
         else [KmsLog.enableFailed r.key_id])) := by
  constructor
  · by_cases hc : r.default_key_flag = "0" ∧ r.key_spec ∈ supportList ∧
        r.keystore_id = "0" ∧ r.key_state ∈ (["2"] : List String)
    · unfold rotationKey_perform_action
      rw [if_pos hc]
      cases resp with
      | ok u => rfl
      | error e1 =>
          dsimp only
          by_cases h4 : e1.status_code = 400
          · rw [if_pos h4]
          · rw [if_neg h4]
    · unfold rotationKey_perform_action
      rw [if_neg hc]
  · intro hresp hc
    subst hresp
    unfold rotationKey_perform_action
    rw [if_pos hc]
    dsimp only
    by_cases h4 : e.status_code = 400
    · rw [if_pos h4, if_pos h4]
    · rw [if_neg h4, if_neg h4]

/-- Witness for the amended C5 at a concrete 400 error. -/
theorem kms_c5_witness :
    (rotationKey_perform_action
        (Except.error { status_code := 400, error_msg := "dup" }) rC5).raised = none ∧
    (rotationKey_perform_action
        (Except.error { status_code := 400, error_msg := "dup" }) rC5).logs =
      [KmsLog.enableBenign400 "k5" "dup"] :=
  ⟨(kms_c5_enable_rotation_swallows_all
      (Except.error { status_code := 400, error_msg := "dup" }) rC5
      { status_code := 400, error_msg := "dup" }).1,
   (kms_c5_enable_rotation_swallows_all
      (Except.error { status_code := 400, error_msg := "dup" }) rC5
      { status_code := 400, error_msg := "dup" }).2 rfl
      ⟨rfl, by decide, rfl, by decide⟩⟩

/-! ### Claims about the URL helpers and `createKey.process` -/

/-- Claim C6 counterexample: on the protocol-stripped input of the claim,
`get_obs_server` returns `"obs.region1.example.com"` — the `lstrip(".")` only
removes the leading dot of `".obs.region1.example.com"` — and not the
`"region1.example.com"` the claim states. -/
theorem kms_c6_counterexample :
    get_obs_server
        (stripProtocol "https://bucket1.obs.region1.example.com/path/to/kms.txt") =
      "obs.region1.example.com" ∧
    "obs.region1.example.com" ≠ "region1.example.com" := by
  exact ⟨rfl, by decide⟩

/-- Claim C6 (amended): on the claim's input URL, after the protocol prefix is
stripped as in `process`, `get_obs_name` returns `"bucket1"`, `get_obs_server`
returns `"obs.region1.example.com"`, and `get_file_path` returns
`"path/to/kms.txt"`. -/
theorem kms_c6_url_decomposition :
    get_obs_name
        (stripProtocol "https://bucket1.obs.region1.example.com/path/to/kms.txt") =
      "bucket1" ∧
    get_obs_server
        (stripProtocol "https://bucket1.obs.region1.example.com/path/to/kms.txt") =
      "obs.region1.example.com" ∧
    get_file_path
        (stripProtocol "https://bucket1.obs.region1.example.com/path/to/kms.txt") =
      some "path/to/kms.txt" := by
  exact ⟨rfl, rfl, rfl⟩

/-- The C7 counterexample environment: the OBS fetch answers with status 404. -/
def envC7 : CreateEnv :=
  { key_aliases := [], obs_url := some "https://b.obs.r.example.com/f.txt",
    getObject := Except.ok
      { status := 404, obs_key_aliases := [], errorCode := "NoSuchKey",
        errorMessage := "missing" },
    list_aliases_resp := [], time := 5,
    create_key := fun _ => Except.ok "kid-1",
    create_alias := fun _ _ => Except.ok () }

/-- Claim C7 counterexample: an object-storage fetch returning status 404
(≥ 300) does not abort the action by raising — `process` issues the fetch,
logs, and returns the empty list normally. -/
theorem kms_c7_counterexample :
    (process envC7).ret = Except.ok ProcRet.emptyList ∧
    (process envC7).calls = [ApiCall.getObject "b" "f.txt"] := by
  exact ⟨rfl, rfl⟩

/-- Claim C7 (amended): with a non-empty `obs_url` configured, a malformed URL
whose split yields no second segment raises (`IndexError`), and a
request-level client exception is logged and re-raised; an object-storage
fetch with status ≥ 300 instead aborts the action by logging and returning an
empty result, with no further client call. -/
theorem kms_c7_obs_failure_modes (env : CreateEnv) (url f : String)
    (e : ClientError) (resp : ObsResp)
    (hurl : env.obs_url = some url) (hne : url ≠ "") :
    (get_file_path (stripProtocol url) = none →
      process env = { calls := [], ret := Except.error PyErr.indexError }) ∧
    (get_file_path (stripProtocol url) = some f →
      env.getObject = Except.error e →
      (process env).ret = Except.error (PyErr.clientRequest e)) ∧
    (get_file_path (stripProtocol url) = some f →
      env.getObject = Except.ok resp → 300 ≤ resp.status →
      (process env).calls = [ApiCall.getObject (get_obs_name (stripProtocol url)) f] ∧
      (process env).ret = Except.ok ProcRet.emptyList) := by
  have hiff : ¬ (env.key_aliases = [] ∧ env.obs_url = none) := by
    rintro ⟨-, hn⟩
    rw [hurl] at hn
    cases hn
  refine ⟨fun hmal => ?_, fun hfile hobj => ?_, fun hfile hobj hstatus => ?_⟩
  · unfold process
    rw [if_neg hiff, hurl]
    dsimp only
    rw [if_neg hne]
    rw [hmal]
  · unfold process
    rw [if_neg hiff, hurl]
    dsimp only
    rw [if_neg hne]
    rw [hfile]
    dsimp only
    rw [hobj]
  · have hlt : ¬ (resp.status < 300) := by omega
    unfold process
    rw [if_neg hiff, hurl]
    dsimp only
    rw [if_neg hne]
    rw [hfile]
    dsimp only
    rw [hobj]
    dsimp only
    rw [if_neg hlt]
    exact ⟨rfl, rfl⟩

/-- Environment for the C7 witness, malformed-URL conjunct: the stripped URL
contains no `/` after the last `".obs"`. -/
def envC7m : CreateEnv :=
  { envC7 with obs_url := some "https://b.obs.example.com" }

/-- The client exception the C7 witness environment raises. -/
def errC7 : ClientError :=
  { status_code := 403, request_id := "r1", error_code := "AccessDenied",
    error_msg := "denied" }

/-- The 404 response of the C7 counterexample environment. -/
def respC7 : ObsResp :=
  { status := 404, obs_key_aliases := [], errorCode := "NoSuchKey",
    errorMessage := "missing" }

/-- Environment for the C7 witness, client-exception conjunct. -/
def envC7c : CreateEnv :=
  { envC7 with getObject := Except.error errC7 }

/-- Witness for the amended C7, applying each conjunct at a concrete
environment. -/
theorem kms_c7_witness :
    process envC7m = { calls := [], ret := Except.error PyErr.indexError } ∧
    (process envC7c).ret = Except.error (PyErr.clientRequest errC7) ∧
    ((process envC7).calls = [ApiCall.getObject "b" "f.txt"] ∧
      (process envC7).ret = Except.ok ProcRet.emptyList) :=
  ⟨(kms_c7_obs_failure_modes envC7m "https://b.obs.example.com" "" errC7 respC7
      rfl (by decide)).1 rfl,
   (kms_c7_obs_failure_modes envC7c "https://b.obs.r.example.com/f.txt" "f.txt"
      errC7 respC7 rfl (by decide)).2.1 rfl rfl,
   (kms_c7_obs_failure_modes envC7 "https://b.obs.r.example.com/f.txt" "f.txt"
      errC7 respC7 rfl (by decide)).2.2 rfl rfl (by decide)⟩

/-- Environment of claim C8: desired aliases `{"a","c"}`, existing raw aliases
`alias/a` and `alias/b`. -/
def envC8 : CreateEnv :=
  { key_aliases := ["a", "c"], obs_url := none,
    getObject := Except.ok
      { status := 200, obs_key_aliases := [], errorCode := "", errorMessage := "" },
    list_aliases_resp := ["alias/a", "alias/b"], time := 5,
    create_key := fun _ => Except.ok "kid-1",
    create_alias := fun _ _ => Except.ok () }

/-- Claim C8: with existing aliases `{"a","b"}` (after stripping `alias/`) and
desired aliases `{"a","c"}`, `process` issues exactly one `create_key` and one
`create_alias`, for alias `"c"` only — the full call trace is the alias
listing followed by the single creation pair. -/
theorem kms_c8_single_creation :
    (process envC8).calls =
      [ApiCall.listAliases, ApiCall.createKey "5", ApiCall.createAlias "kid-1" "alias/c"] ∧
    (process envC8).ret = Except.ok ProcRet.noneRet := by
  decide

/-- Claim C9: when `key_aliases` is empty and no `obs_url` is configured,
`process` performs zero client calls and returns the empty list. -/
theorem kms_c9_empty_config_no_calls (env : CreateEnv)
    (h1 : env.key_aliases = []) (h2 : env.obs_url = none) :
    process env = { calls := [], ret := Except.ok ProcRet.emptyList } := by
  unfold process
  rw [if_pos ⟨h1, h2⟩]

/-- Environment for the C9 witness. -/
def envC9 : CreateEnv :=
  { key_aliases := [], obs_url := none,
    getObject := Except.ok
      { status := 200, obs_key_aliases := [], errorCode := "", errorMessage := "" },
    list_aliases_resp := [], time := 5,
    create_key := fun _ => Except.ok "kid-1",
    create_alias := fun _ _ => Except.ok () }

/-- Witness for C9 at a concrete environment. -/
theorem kms_c9_witness :
    process envC9 = { calls := [], ret := Except.ok ProcRet.emptyList } :=
  kms_c9_empty_config_no_calls envC9 rfl rfl

end KmsSpec
